import Mathlib

/-!
Shallow embedding of the ai-product-demo-bot backend core:
session lifecycle (`SessionService`), command dispatch (`CommandService`),
transcript assembly (`TranscriptService`) from `backend/services.py` and
`backend/models.py`, and the `ask_ai` view from `backend/views.py`.

Python strings are modelled as `List Char`; the Python string operations
used by the code (`strip`, `lower`, `startswith`, `in`, slicing, `len`)
are given explicit executable counterparts below.  Timestamps are drawn
from a monotone per-store counter standing for the wall clock that Django
reads on `auto_now_add` writes.
-/

/-- Whitespace characters removed by Python `str.strip()` (ASCII subset). -/
def isPySpace (c : Char) : Bool :=
  c = ' ' || c = '\t' || c = '\n' || c = '\r' || c = '\x0b' || c = '\x0c'

/-- Python `s.strip()`: drop whitespace from both ends. -/
def pyStrip (s : List Char) : List Char :=
  ((s.dropWhile isPySpace).reverse.dropWhile isPySpace).reverse

/-- Python `s.lower()` (ASCII behaviour, which covers every literal the code compares). -/
def pyLower (s : List Char) : List Char :=
  s.map Char.toLower

/-- Python `needle in hay` substring test. -/
def strContains (hay needle : List Char) : Bool :=
  needle.isPrefixOf hay ||
    match hay with
    | [] => false
    | _ :: t => strContains t needle

/-- Model of `backend/models.py` `DemoSession`: session id, start time, optional end
time, active flag.  The uuid primary key is modelled as a `Nat` drawn from a
fresh-id counter. -/
structure DemoSession where
  session_id : Nat
  started_at : Nat
  ended_at : Option Nat
  is_active : Bool
deriving DecidableEq, Repr

/-- Method `DemoSession.end_session`: set `ended_at` to the current time and clear
`is_active`, in one write. -/
def DemoSession.end_session (s : DemoSession) (now : Nat) : DemoSession :=
  { s with ended_at := some now, is_active := false }

/-- Model of `backend/models.py` `CommandLog`: one immutable command/response record
owned by a session. -/
structure CommandLog where
  id : Nat
  session_id : Nat
  timestamp : Nat
  command_text : List Char
  response : List Char
  is_ai_response : Bool
  processing_time_ms : Option Nat
deriving DecidableEq, Repr

/-- The persistent store backing both tables, plus the id and clock
counters the database supplies. `logs` is kept in insertion order. -/
structure DB where
  sessions : List DemoSession
  logs : List CommandLog
  next_session_id : Nat
  next_log_id : Nat
  clock : Nat
deriving DecidableEq, Repr

def DB.init : DB :=
  { sessions := [], logs := [], next_session_id := 0, next_log_id := 0, clock := 0 }

namespace SessionService

/-- Service `SessionService.create_session`: insert a fresh session with
`is_active=True`, `ended_at=None`, `started_at` = now. -/
def create_session (db : DB) : DemoSession × DB :=
  let s : DemoSession :=
    { session_id := db.next_session_id
      started_at := db.clock
      ended_at := none
      is_active := true }
  (s, { db with
          sessions := db.sessions ++ [s]
          next_session_id := db.next_session_id + 1
          clock := db.clock + 1 })

/-- Service `SessionService.get_session`: lookup by id, `None` when absent. -/
def get_session (db : DB) (sid : Nat) : Option DemoSession :=
  db.sessions.find? (fun s => s.session_id == sid)

/-- Service `SessionService.end_session`: transition only when the session exists
and is still active; otherwise report `False` and change nothing. -/
def end_session (db : DB) (sid : Nat) : Bool × DB :=
  match get_session db sid with
  | none => (false, db)
  | some s =>
      if s.is_active then
        (true,
         { db with
             sessions := db.sessions.map
               (fun t => if t.session_id == sid then t.end_session db.clock else t)
             clock := db.clock + 1 })
      else (false, db)

end SessionService

/-- Outcome of one call to the external chat-completion client inside
`CommandService._handle_ai_command`: either the reply text of
`response.choices[0].message.content`, or the exception message `str(e)`
of whatever the client raised. -/
inductive AiResult where
  | ok (reply : List Char)
  | exn (msg : List Char)
deriving DecidableEq, Repr

/-- Ambient facts a single dispatch reads from outside the store:
the configured `OPENAI_API_KEY` (from `settings`), the behaviour of the
external completion call on each prompt, the formatted wall-clock string
`timezone.now().strftime` produces, and the measured elapsed
milliseconds `int((time.time() - start_time) * 1000)`. -/
structure AiEnv where
  api_key : Option (List Char)
  aiCall : List Char → AiResult
  nowStr : List Char
  elapsedMs : Nat

/-- The `(dict, status)` pair `CommandService.process_command` returns:
`{"response": r}, 200` on success, `{"error": msg}, code` on rejection. -/
inductive PCOutcome where
  | ok (response : List Char)
  | err (msg : List Char) (code : Nat)
deriving DecidableEq, Repr

namespace CommandService

/-- Handler `CommandService._handle_ai_command`: with no key configured return the
not-configured text un-flagged; otherwise send `command[3:].strip()` as the
prompt, return the stripped reply flagged AI on success, and absorb any
exception into an `AI service error: ...` text un-flagged. -/
def _handle_ai_command (env : AiEnv) (command : List Char) : List Char × Bool :=
  match env.api_key with
  | none => ("AI service not configured".data, false)
  | some _ =>
      match env.aiCall (pyStrip (command.drop 3)) with
      | .ok reply => (pyStrip reply, true)
      | .exn e => ("AI service error: ".data ++ e, false)

/-- Handler `CommandService._handle_dummy_command`: first-match-wins substring
table over the lowercased command; never flagged AI. -/
def _handle_dummy_command (now : List Char) (command : List Char) : List Char × Bool :=
  let command_lower := pyLower command
  if strContains command_lower "hello".data then
    ("Hello! How can I assist you today?".data, false)
  else if strContains command_lower "time".data then
    ("The current time is ".data ++ now, false)
  else if strContains command_lower "help".data then
    ("I can help you with basic commands. Try saying \x27hello\x27, \x27time\x27, or prefix with \x27ai:\x27 for AI responses.".data, false)
  else
    ("I\x27m not sure how to respond to that yet. Try saying \x27help\x27 for available commands.".data, false)

/-- Dispatcher `CommandService.process_command`: validate session existence, liveness
and non-emptiness of the stripped command; classify on
`command.lower().startswith("ai:")`; log exactly one `CommandLog` row on
the success path and return `{"response": ...}, 200`. -/
def process_command (env : AiEnv) (db : DB) (sid : Nat) (command : List Char) :
    PCOutcome × DB :=
  match SessionService.get_session db sid with
  | none => (.err "Session not found".data 404, db)
  | some session =>
      if session.is_active = false then
        (.err "Session has ended".data 400, db)
      else if pyStrip command = [] then
        (.err "Command cannot be empty".data 400, db)
      else
        let rb : List Char × Bool :=
          if "ai:".data.isPrefixOf (pyLower command) then
            _handle_ai_command env command
          else
            _handle_dummy_command env.nowStr command
        let entry : CommandLog :=
          { id := db.next_log_id
            session_id := session.session_id
            timestamp := db.clock
            command_text := pyStrip command
            response := rb.1
            is_ai_response := rb.2
            processing_time_ms := some env.elapsedMs }
        (.ok rb.1,
         { db with
             logs := db.logs ++ [entry]
             next_log_id := db.next_log_id + 1
             clock := db.clock + 1 })

end CommandService

/-- One row of the transcript's `commands` list. -/
structure EntryView where
  timestamp : Nat
  command : List Char
  response : List Char
  is_ai_response : Bool
  processing_time_ms : Option Nat
deriving DecidableEq, Repr

/-- The transcript dict `TranscriptService.get_session_transcript` builds. -/
structure TranscriptView where
  session_id : Nat
  started_at : Nat
  ended_at : Option Nat
  is_active : Bool
  total_commands : Nat
  commands : List EntryView
deriving DecidableEq, Repr

/-- Result `(dict, status)` of the transcript endpoint. -/
inductive TSOutcome where
  | ok (t : TranscriptView)
  | err (msg : List Char) (code : Nat)
deriving DecidableEq, Repr

/-- Insert one log row into a timestamp-sorted list (ascending). -/
def insertTs (e : CommandLog) : List CommandLog → List CommandLog
  | [] => [e]
  | a :: t => if e.timestamp ≤ a.timestamp then e :: a :: t else a :: insertTs e t

/-- Sort log rows ascending by timestamp: the `ORDER BY timestamp` that
`CommandLog.Meta.ordering = ['timestamp']` applies to `session.commands.all()`. -/
def sortTs : List CommandLog → List CommandLog
  | [] => []
  | a :: t => insertTs a (sortTs t)

namespace TranscriptService

def entryView (c : CommandLog) : EntryView :=
  { timestamp := c.timestamp
    command := c.command_text
    response := c.response
    is_ai_response := c.is_ai_response
    processing_time_ms := c.processing_time_ms }

/-- Service `TranscriptService.get_session_transcript`: 404 when the session is
absent; otherwise assemble the session header and its log rows ordered
ascending by timestamp.  Read-only: the store is returned untouched. -/
def get_session_transcript (db : DB) (sid : Nat) : TSOutcome × DB :=
  match SessionService.get_session db sid with
  | none => (.err "Session not found".data 404, db)
  | some session =>
      let commands := sortTs (db.logs.filter (fun c => c.session_id == session.session_id))
      (.ok { session_id := session.session_id
             started_at := session.started_at
             ended_at := session.ended_at
             is_active := session.is_active
             total_commands := commands.length
             commands := commands.map entryView }, db)

end TranscriptService

/-- One externally triggered operation against the store. -/
inductive Op where
  | create
  | endSession (sid : Nat)
  | command (env : AiEnv) (sid : Nat) (cmd : List Char)

/-- State transition of one operation (outputs discarded). -/
def applyOp (db : DB) : Op → DB
  | .create => (SessionService.create_session db).2
  | .endSession sid => (SessionService.end_session db sid).2
  | .command env sid cmd => (CommandService.process_command env db sid cmd).2

/-- Stores reachable from the empty store by the service operations. -/
inductive Reachable : DB → Prop where
  | init : Reachable DB.init
  | step (db : DB) (op : Op) : Reachable db → Reachable (applyOp db op)

/-- Outcome of the `openai.ChatCompletion.create` call inside the `ask_ai`
view: the reply content, or one of the four caught exception classes. -/
inductive OpenAiOutcome where
  | ok (content : List Char)
  | rateLimit
  | invalidRequest
  | authFailed
  | apiError
deriving DecidableEq, Repr

/-- Ambient facts the `ask_ai` view reads: `os.environ['OPENAI_API_KEY']`,
the completion call's behaviour on each prompt, and the dispatch
environment of the nested best-effort `CommandService.process_command`. -/
structure AskEnv where
  openai_api_key : Option (List Char)
  call : List Char → OpenAiOutcome
  cmdEnv : AiEnv

/-- The JSON body and HTTP status of one `ask_ai` response; absent keys are
`none`.  A bare `Response({...})` carries DRF's default status 200. -/
structure AskAiResp where
  response : Option (List Char)
  error : Option (List Char)
  user_input : Option (List Char)
  screen_context_length : Option Nat
  status : Nat
deriving DecidableEq, Repr

/-- The f-string prompt `ask_ai` builds around the (truncated) screen text
and the user question. -/
def ask_ai_prompt (limited_screen_text user_input : List Char) : List Char :=
  "\nYou are an intelligent AI demo agent helping users interact with a SaaS product UI. You can see what\x27s currently displayed on their screen and should provide helpful, contextual guidance.\n\nCURRENT SCREEN CONTENT:\n---\n".data
  ++ limited_screen_text
  ++ "\n---\n\nUSER QUESTION/COMMAND: \"".data
  ++ user_input
  ++ "\"\n\nINSTRUCTIONS:\n1. Analyze the visible screen content to understand the current context\n2. Provide a helpful, specific response that guides the user\n3. If the user asks about features not visible, suggest how to navigate to them\n4. Be conversational but professional\n5. If you can identify specific UI elements, mention them by name\n6. Keep responses concise but informative\n\nRESPONSE FORMAT:\nProvide a natural, helpful response that addresses the user\x27s question based on what\x27s visible on screen.\n".data

/-- The `ask_ai` view (`backend/views.py`).  Returns the response, whether
the completion boundary was actually invoked, and the store after the
best-effort interaction logging.  `session_id = none` models an absent or
empty (falsy) `session_id` field. -/
def ask_ai (env : AskEnv) (db : DB) (user_input screen_text : List Char)
    (session_id : Option Nat) : AskAiResp × Bool × DB :=
  if pyStrip user_input = [] then
    ({ response := none, error := some "User input is required".data,
       user_input := none, screen_context_length := none, status := 400 },
     false, db)
  else
    match env.openai_api_key with
    | none =>
        ({ response := none,
           error := some "AI service not configured. Please contact support.".data,
           user_input := none, screen_context_length := none, status := 500 },
         false, db)
    | some _ =>
        let limited_screen_text :=
          if screen_text = [] then "No screen content available".data
          else screen_text.take 1500
        match env.call (ask_ai_prompt limited_screen_text user_input) with
        | .ok content =>
            let ai_response := pyStrip content
            if ai_response = [] then
              ({ response := some "I\x27m sorry, I couldn\x27t generate a response. Please try asking your question again.".data,
                 error := none, user_input := some user_input,
                 screen_context_length := some limited_screen_text.length,
                 status := 200 },
               true, db)
            else
              let db' :=
                match session_id with
                | some sid =>
                    (CommandService.process_command env.cmdEnv db sid
                      ("AI Analysis: ".data ++ user_input)).2
                | none => db
              ({ response := some ai_response, error := none,
                 user_input := some user_input,
                 screen_context_length := some limited_screen_text.length,
                 status := 200 },
               true, db')
        | .rateLimit =>
            ({ response := some "I\x27m receiving too many requests right now. Please wait a moment and try again.".data,
               error := some "Rate limit exceeded".data,
               user_input := none, screen_context_length := none, status := 429 },
             true, db)
        | .invalidRequest =>
            ({ response := some "I\x27m having trouble processing your request. Please try rephrasing your question.".data,
               error := some "Invalid request".data,
               user_input := none, screen_context_length := none, status := 400 },
             true, db)
        | .authFailed =>
            ({ response := some "AI service is currently unavailable. Please contact support.".data,
               error := some "Authentication failed".data,
               user_input := none, screen_context_length := none, status := 500 },
             true, db)
        | .apiError =>
            ({ response := some "I\x27m experiencing technical difficulties. Please try again in a moment.".data,
               error := some "API error".data,
               user_input := none, screen_context_length := none, status := 503 },
             true, db)

/-! Concrete fixtures used to instantiate the theorems below. -/

/-- A dispatch environment with no API key and a failing completion call. -/
def env0 : AiEnv :=
  { api_key := none, aiCall := fun _ => .exn "boom".data,
    nowStr := "12:00:00".data, elapsedMs := 5 }

/-- A dispatch environment with a key and a constant successful reply. -/
def envOk : AiEnv :=
  { api_key := some "k".data, aiCall := fun _ => .ok " yo ".data,
    nowStr := "12:00:00".data, elapsedMs := 5 }

/-- The store after one `create_session`: session 0 is active. -/
def db1 : DB := applyOp DB.init .create

/-- An `ask_ai` environment with a key and a constant successful reply. -/
def envA : AskEnv :=
  { openai_api_key := some "k".data, call := fun _ => .ok "yo".data, cmdEnv := env0 }



/-- C1: `process_command` appends exactly one `CommandLog` row whenever the
call passes validation (session present, active, stripped command
non-empty), and on each of the three rejections it returns the matching
error and leaves the store — in particular the command log — unchanged. -/
theorem processCommand_log_discipline (env : AiEnv) (db : DB) (sid : Nat)
    (cmd : List Char) :
    match SessionService.get_session db sid with
    | none =>
        CommandService.process_command env db sid cmd
          = (.err "Session not found".data 404, db)
    | some s =>
        if s.is_active = false then
          CommandService.process_command env db sid cmd
            = (.err "Session has ended".data 400, db)
        else if pyStrip cmd = [] then
          CommandService.process_command env db sid cmd
            = (.err "Command cannot be empty".data 400, db)
        else
          ∃ e, (CommandService.process_command env db sid cmd).2.logs
                  = db.logs ++ [e]
            ∧ (CommandService.process_command env db sid cmd).1 = .ok e.response
            ∧ (CommandService.process_command env db sid cmd).2.sessions
                  = db.sessions := by
  unfold CommandService.process_command
  cases h : SessionService.get_session db sid with
  | none => simp
  | some s =>
    by_cases ha : s.is_active = false
    · simp [ha]
    · by_cases he : pyStrip cmd = []
      · simp [ha, he]
      · simp [ha, he]

theorem processCommand_log_discipline_witness :
    match SessionService.get_session db1 0 with
    | none =>
        CommandService.process_command envOk db1 0 "hello".data
          = (.err "Session not found".data 404, db1)
    | some s =>
        if s.is_active = false then
          CommandService.process_command envOk db1 0 "hello".data
            = (.err "Session has ended".data 400, db1)
        else if pyStrip "hello".data = [] then
          CommandService.process_command envOk db1 0 "hello".data
            = (.err "Command cannot be empty".data 400, db1)
        else
          ∃ e, (CommandService.process_command envOk db1 0 "hello".data).2.logs
                  = db1.logs ++ [e]
            ∧ (CommandService.process_command envOk db1 0 "hello".data).1
                  = .ok e.response
            ∧ (CommandService.process_command envOk db1 0 "hello".data).2.sessions
                  = db1.sessions :=
  processCommand_log_discipline envOk db1 0 "hello".data

lemma find?_map_end_session (l : List DemoSession) (sid now : Nat)
    (s : DemoSession) (h : l.find? (fun t => t.session_id == sid) = some s) :
    (l.map (fun t => if t.session_id == sid then t.end_session now else t)).find?
      (fun t => t.session_id == sid) = some (s.end_session now) := by
  induction l with
  | nil => simp at h
  | cons a t ih =>
    cases hpa : (a.session_id == sid) with
    | true =>
        simp only [List.find?, hpa] at h
        obtain rfl : a = s := by simpa using h
        simp [List.find?, hpa, DemoSession.end_session]
    | false =>
        simp only [List.find?, hpa] at h
        simp only [List.map_cons, hpa, Bool.false_eq_true, if_false]
        simp only [List.find?, hpa]
        exact ih h

lemma end_session_absent (db : DB) (sid : Nat)
    (h : SessionService.get_session db sid = none) :
    SessionService.end_session db sid = (false, db) := by
  unfold SessionService.end_session
  rw [h]

lemma end_session_inactive (db : DB) (sid : Nat) (s : DemoSession)
    (h : SessionService.get_session db sid = some s) (ha : s.is_active = false) :
    SessionService.end_session db sid = (false, db) := by
  unfold SessionService.end_session
  rw [h]
  simp [ha]

lemma end_session_active (db : DB) (sid : Nat) (s : DemoSession)
    (h : SessionService.get_session db sid = some s) (ha : s.is_active = true) :
    SessionService.end_session db sid =
      (true,
       { db with
           sessions := db.sessions.map
             (fun t => if t.session_id == sid then t.end_session db.clock else t)
           clock := db.clock + 1 }) := by
  unfold SessionService.end_session
  rw [h]
  simp [ha]

/-- C6: `end_session` returns `true` and transitions exactly when the
session exists and is active (the transition setting `ended_at` to now and
`is_active` to false); it returns `false` and changes nothing otherwise;
and a second call on the same id always returns `false` and leaves the
store as the first call left it. -/
theorem endSession_idempotent_terminal (db : DB) (sid : Nat) :
    ((SessionService.end_session db sid).1 = true ↔
       ∃ s, SessionService.get_session db sid = some s ∧ s.is_active = true)
  ∧ ((SessionService.end_session db sid).1 = false →
       (SessionService.end_session db sid).2 = db)
  ∧ (∀ s, SessionService.get_session db sid = some s → s.is_active = true →
       SessionService.get_session (SessionService.end_session db sid).2 sid
         = some (s.end_session db.clock))
  ∧ SessionService.end_session (SessionService.end_session db sid).2 sid
      = (false, (SessionService.end_session db sid).2) := by
  cases hg : SessionService.get_session db sid with
  | none =>
      rw [end_session_absent db sid hg]
      refine ⟨by simp [hg], fun _ => rfl, ?_, end_session_absent db sid hg⟩
      intro s hs
      simp [hg] at hs
  | some s =>
      cases ha : s.is_active with
      | false =>
          rw [end_session_inactive db sid s hg ha]
          refine ⟨?_, fun _ => rfl, ?_, end_session_inactive db sid s hg ha⟩
          · simp only [hg]
            constructor
            · intro h
              cases h
            · rintro ⟨s', hs', hact⟩
              obtain rfl : s = s' := by simpa using hs'
              rw [ha] at hact
              cases hact
          · intro s' hs' hact
            obtain rfl : s = s' := by simpa [hg] using hs'
            rw [ha] at hact
            cases hact
      | true =>
          rw [end_session_active db sid s hg ha]
          have hfind :
              SessionService.get_session
                { db with
                    sessions := db.sessions.map
                      (fun t => if t.session_id == sid then t.end_session db.clock else t)
                    clock := db.clock + 1 } sid
                = some (s.end_session db.clock) :=
            find?_map_end_session db.sessions sid db.clock s hg
          refine ⟨by simp [hg, ha], by simp, ?_, ?_⟩
          · intro s' hs' hact
            obtain rfl : s = s' := by simpa [hg] using hs'
            exact hfind
          · exact end_session_inactive _ sid (s.end_session db.clock) hfind rfl

theorem endSession_idempotent_terminal_witness :
    SessionService.get_session (SessionService.end_session db1 0).2 0
      = some { session_id := 0, started_at := 0, ended_at := some 1, is_active := false }
  ∧ SessionService.end_session (SessionService.end_session db1 0).2 0
      = (false, (SessionService.end_session db1 0).2) := by
  refine ⟨?_, (endSession_idempotent_terminal db1 0).2.2.2⟩
  have h := (endSession_idempotent_terminal db1 0).2.2.1
    { session_id := 0, started_at := 0, ended_at := none, is_active := true }
    (by decide) rfl
  exact h

/-- The C2 session invariant, as a predicate on stores. -/
def sessionsInv (db : DB) : Prop :=
  ∀ s ∈ db.sessions, (s.ended_at ≠ none ↔ s.is_active = false)

lemma sessionsInv_applyOp (db : DB) (op : Op) (ih : sessionsInv db) :
    sessionsInv (applyOp db op) := by
  cases op with
  | create =>
      intro s hs
      simp only [applyOp, SessionService.create_session, List.mem_append,
        List.mem_singleton] at hs
      rcases hs with hs | rfl
      · exact ih s hs
      · simp
  | endSession sid =>
      intro s hs
      simp only [applyOp] at hs
      unfold SessionService.end_session at hs
      cases hg : SessionService.get_session db sid with
      | none =>
          rw [hg] at hs
          exact ih s hs
      | some s0 =>
          rw [hg] at hs
          by_cases ha : s0.is_active
          · simp only [ha, if_true] at hs
            simp only [List.mem_map] at hs
            obtain ⟨t, ht, rfl⟩ := hs
            by_cases hts : (t.session_id == sid) = true
            · simp [hts, DemoSession.end_session]
            · simp only [hts, Bool.false_eq_true, if_false] at *
              simpa using ih t ht
          · simp only [ha, if_false] at hs
            exact ih s hs
  | command env sid cmd =>
      intro s hs
      simp only [applyOp] at hs
      unfold CommandService.process_command at hs
      cases hg : SessionService.get_session db sid with
      | none =>
          rw [hg] at hs
          exact ih s hs
      | some s0 =>
          rw [hg] at hs
          by_cases ha : s0.is_active = false
          · simp only [ha, if_true] at hs
            exact ih s hs
          · by_cases he : pyStrip cmd = []
            · simp only [ha, he, if_false, if_true] at hs
              exact ih s hs
            · simp only [ha, he, if_false] at hs
              exact ih s hs

lemma reachable_sessionsInv (db : DB) (h : Reachable db) : sessionsInv db := by
  induction h with
  | init => intro s hs; simp [DB.init] at hs
  | step db op _ ih => exact sessionsInv_applyOp db op ih

lemma process_command_not_found (env : AiEnv) (db : DB) (sid : Nat)
    (cmd : List Char) (hg : SessionService.get_session db sid = none) :
    CommandService.process_command env db sid cmd
      = (.err "Session not found".data 404, db) := by
  unfold CommandService.process_command
  rw [hg]

lemma process_command_ended (env : AiEnv) (db : DB) (sid : Nat)
    (cmd : List Char) (s : DemoSession)
    (hg : SessionService.get_session db sid = some s)
    (ha : s.is_active = false) :
    CommandService.process_command env db sid cmd
      = (.err "Session has ended".data 400, db) := by
  unfold CommandService.process_command
  rw [hg]
  simp [ha]

lemma process_command_empty (env : AiEnv) (db : DB) (sid : Nat)
    (cmd : List Char) (s : DemoSession)
    (hg : SessionService.get_session db sid = some s)
    (ha : ¬ s.is_active = false) (he : pyStrip cmd = []) :
    CommandService.process_command env db sid cmd
      = (.err "Command cannot be empty".data 400, db) := by
  unfold CommandService.process_command
  rw [hg]
  simp [ha, he]

lemma process_command_success (env : AiEnv) (db : DB) (sid : Nat)
    (cmd : List Char) (s : DemoSession)
    (hg : SessionService.get_session db sid = some s)
    (ha : ¬ s.is_active = false) (he : ¬ pyStrip cmd = []) :
    CommandService.process_command env db sid cmd =
      ((.ok (if "ai:".data.isPrefixOf (pyLower cmd)
             then CommandService._handle_ai_command env cmd
             else CommandService._handle_dummy_command env.nowStr cmd).1),
       { db with
           logs := db.logs ++
             [{ id := db.next_log_id
                session_id := s.session_id
                timestamp := db.clock
                command_text := pyStrip cmd
                response := (if "ai:".data.isPrefixOf (pyLower cmd)
                             then CommandService._handle_ai_command env cmd
                             else CommandService._handle_dummy_command env.nowStr cmd).1
                is_ai_response := (if "ai:".data.isPrefixOf (pyLower cmd)
                             then CommandService._handle_ai_command env cmd
                             else CommandService._handle_dummy_command env.nowStr cmd).2
                processing_time_ms := some env.elapsedMs }]
           next_log_id := db.next_log_id + 1
           clock := db.clock + 1 }) := by
  unfold CommandService.process_command
  rw [hg]
  simp [ha, he]

/-- The log-ordering invariant: rows carry strictly increasing timestamps,
all below the store clock. -/
def logsInv (db : DB) : Prop :=
  db.logs.Pairwise (fun a b => a.timestamp < b.timestamp)
  ∧ ∀ e ∈ db.logs, e.timestamp < db.clock

lemma end_session_logs_clock (db : DB) (sid : Nat) :
    (SessionService.end_session db sid).2.logs = db.logs
  ∧ db.clock ≤ (SessionService.end_session db sid).2.clock := by
  unfold SessionService.end_session
  cases hg : SessionService.get_session db sid with
  | none => exact ⟨rfl, le_refl _⟩
  | some s =>
      by_cases ha : s.is_active
      · simp [ha, Nat.le_succ]
      · simp [ha]

lemma logsInv_applyOp (db : DB) (op : Op) (ih : logsInv db) :
    logsInv (applyOp db op) := by
  cases op with
  | create =>
      exact ⟨ih.1, fun e he => Nat.lt_succ_of_lt (ih.2 e he)⟩
  | endSession sid =>
      refine ⟨?_, fun e he => ?_⟩
      · rw [show (applyOp db (.endSession sid)).logs
               = (SessionService.end_session db sid).2.logs from rfl,
            (end_session_logs_clock db sid).1]
        exact ih.1
      · rw [show (applyOp db (.endSession sid)).logs
               = (SessionService.end_session db sid).2.logs from rfl,
            (end_session_logs_clock db sid).1] at he
        exact lt_of_lt_of_le (ih.2 e he) (end_session_logs_clock db sid).2
  | command env sid cmd =>
      show logsInv (CommandService.process_command env db sid cmd).2
      cases hg : SessionService.get_session db sid with
      | none => rw [process_command_not_found env db sid cmd hg]; exact ih
      | some s =>
          by_cases ha : s.is_active = false
          · rw [process_command_ended env db sid cmd s hg ha]; exact ih
          · by_cases he : pyStrip cmd = []
            · rw [process_command_empty env db sid cmd s hg ha he]; exact ih
            · rw [process_command_success env db sid cmd s hg ha he]
              constructor
              · rw [List.pairwise_append]
                refine ⟨ih.1, by simp, ?_⟩
                intro a hax b hbx
                simp only [List.mem_singleton] at hbx
                subst hbx
                exact ih.2 a hax
              · intro e hex
                simp only [List.mem_append, List.mem_singleton] at hex
                rcases hex with hex | rfl
                · exact Nat.lt_succ_of_lt (ih.2 e hex)
                · exact Nat.lt_succ_self _

lemma reachable_logsInv (db : DB) (h : Reachable db) : logsInv db := by
  induction h with
  | init => exact ⟨List.Pairwise.nil, fun e he => by simp [DB.init] at he⟩
  | step db op _ ih => exact logsInv_applyOp db op ih

lemma sortTs_eq_self (l : List CommandLog)
    (h : l.Pairwise (fun a b => a.timestamp < b.timestamp)) : sortTs l = l := by
  induction l with
  | nil => rfl
  | cons a t ih =>
      have hall := (List.pairwise_cons.mp h).1
      have ht := (List.pairwise_cons.mp h).2
      show insertTs a (sortTs t) = a :: t
      rw [ih ht]
      cases t with
      | nil => rfl
      | cons b t' =>
          show (if a.timestamp ≤ b.timestamp then a :: b :: t' else b :: insertTs a t') = a :: b :: t'
          rw [if_pos (le_of_lt (hall b (by simp)))]

/-- C2: in every store reachable by the service operations, each session
has `ended_at` non-null exactly when `is_active` is false; a freshly
created session is active with a null `ended_at`; and ending a session
sets `ended_at` and clears `is_active` in the same write. -/
theorem session_ended_iff_inactive :
    (∀ db, Reachable db →
       ∀ s ∈ db.sessions, (s.ended_at ≠ none ↔ s.is_active = false))
  ∧ (∀ db, (SessionService.create_session db).1.is_active = true
       ∧ (SessionService.create_session db).1.ended_at = none)
  ∧ (∀ s now, (DemoSession.end_session s now).is_active = false
       ∧ (DemoSession.end_session s now).ended_at = some now) :=
  ⟨fun db h => reachable_sessionsInv db h,
   fun _ => ⟨rfl, rfl⟩,
   fun _ _ => ⟨rfl, rfl⟩⟩

theorem session_ended_iff_inactive_witness :
    (({ session_id := 0, started_at := 0, ended_at := some 1,
        is_active := false } : DemoSession).ended_at ≠ none
      ↔ ({ session_id := 0, started_at := 0, ended_at := some 1,
           is_active := false } : DemoSession).is_active = false) :=
  session_ended_iff_inactive.1 (applyOp db1 (.endSession 0))
    (Reachable.step _ _ (Reachable.step _ _ Reachable.init))
    _ (by decide)

/-- C7: `get_session_transcript` returns `Session not found`/404 with the
store untouched when the session is absent; otherwise, in any reachable
store, it returns the session\x27s id, start, end and active fields together
with the session\x27s log rows in ascending-timestamp order — which equals
their insertion order — their count, and again an untouched store. -/
theorem transcript_ordered_no_side_effects (db : DB) (sid : Nat)
    (hr : Reachable db) :
    (match SessionService.get_session db sid with
     | none =>
         TranscriptService.get_session_transcript db sid
           = (.err "Session not found".data 404, db)
     | some s =>
         TranscriptService.get_session_transcript db sid =
           (.ok { session_id := s.session_id
                  started_at := s.started_at
                  ended_at := s.ended_at
                  is_active := s.is_active
                  total_commands :=
                    (db.logs.filter (fun c => c.session_id == s.session_id)).length
                  commands :=
                    (db.logs.filter (fun c => c.session_id == s.session_id)).map
                      TranscriptService.entryView }, db))
  ∧ (TranscriptService.get_session_transcript db sid).2 = db
  ∧ (∀ t, (TranscriptService.get_session_transcript db sid).1 = .ok t →
       t.commands.Pairwise (fun a b => a.timestamp ≤ b.timestamp)) := by
  have hsorted : ∀ s : DemoSession,
      sortTs (db.logs.filter (fun c => c.session_id == s.session_id))
        = db.logs.filter (fun c => c.session_id == s.session_id) := by
    intro s
    exact sortTs_eq_self _ ((reachable_logsInv db hr).1.filter _)
  have hpw : ∀ s : DemoSession,
      ((db.logs.filter (fun c => c.session_id == s.session_id)).map
          TranscriptService.entryView).Pairwise
        (fun a b => a.timestamp ≤ b.timestamp) := by
    intro s
    rw [List.pairwise_map]
    exact ((reachable_logsInv db hr).1.filter _).imp (fun h => le_of_lt h)
  cases hg : SessionService.get_session db sid with
  | none =>
      have h1 : TranscriptService.get_session_transcript db sid
          = (.err "Session not found".data 404, db) := by
        unfold TranscriptService.get_session_transcript
        rw [hg]
      refine ⟨?_, ?_, ?_⟩
      · exact h1
      · rw [h1]
      · intro t ht
        rw [h1] at ht
        cases ht
  | some s =>
      have h1 : TranscriptService.get_session_transcript db sid =
          (.ok { session_id := s.session_id
                 started_at := s.started_at
                 ended_at := s.ended_at
                 is_active := s.is_active
                 total_commands :=
                   (db.logs.filter (fun c => c.session_id == s.session_id)).length
                 commands :=
                   (db.logs.filter (fun c => c.session_id == s.session_id)).map
                     TranscriptService.entryView }, db) := by
        unfold TranscriptService.get_session_transcript
        rw [hg]
        simp [hsorted s]
      refine ⟨?_, ?_, ?_⟩
      · exact h1
      · rw [h1]
      · intro t ht
        rw [h1] at ht
        obtain rfl : _ = t := by simpa using ht
        exact hpw s

theorem transcript_ordered_no_side_effects_witness :
    (TranscriptService.get_session_transcript
        (applyOp db1 (.command envOk 0 "hello".data)) 0).2
      = applyOp db1 (.command envOk 0 "hello".data) :=
  (transcript_ordered_no_side_effects _ 0
    (Reachable.step _ _ (Reachable.step _ _ Reachable.init))).2.1

/-- C3 as stated fails: `" ai: hi"` has a trimmed form beginning with
`ai:`, yet dispatch (which tests the raw, untrimmed command) routes it to
the rule-based responder and logs it un-flagged, even though the AI
boundary is configured and would have replied. -/
theorem classify_trimmed_counterexample :
    "ai:".data.isPrefixOf (pyLower (pyStrip " ai: hi".data)) = true
  ∧ (CommandService.process_command envOk db1 0 " ai: hi".data).1
      = .ok "I\x27m not sure how to respond to that yet. Try saying \x27help\x27 for available commands.".data
  ∧ (CommandService.process_command envOk db1 0 " ai: hi".data).2.logs.map
      (fun e => e.is_ai_response) = [false] := by
  decide

/-- C3 (amended): classification tests the raw command as received, not
its trimmed form — if the raw command lowercased begins with `ai:` the
dispatch routes to the AI responder, whose prompt is `command[3:]`
re-trimmed; otherwise it routes to the rule-based responder. -/
theorem classify_raw_ai_routing (env : AiEnv) (db : DB) (sid : Nat)
    (cmd : List Char) (s : DemoSession)
    (hg : SessionService.get_session db sid = some s)
    (ha : ¬ s.is_active = false) (he : ¬ pyStrip cmd = []) :
    ("ai:".data.isPrefixOf (pyLower cmd) = true →
       (CommandService.process_command env db sid cmd).1
         = .ok (CommandService._handle_ai_command env cmd).1)
  ∧ ("ai:".data.isPrefixOf (pyLower cmd) = false →
       (CommandService.process_command env db sid cmd).1
         = .ok (CommandService._handle_dummy_command env.nowStr cmd).1)
  ∧ (∀ k r, env.api_key = some k →
       env.aiCall (pyStrip (cmd.drop 3)) = .ok r →
       CommandService._handle_ai_command env cmd = (pyStrip r, true))
  ∧ (∀ k m, env.api_key = some k →
       env.aiCall (pyStrip (cmd.drop 3)) = .exn m →
       CommandService._handle_ai_command env cmd
         = ("AI service error: ".data ++ m, false)) := by
  rw [process_command_success env db sid cmd s hg ha he]
  refine ⟨?_, ?_, ?_, ?_⟩
  · intro hai
    simp [hai]
  · intro hai
    simp [hai]
  · intro k r hk hc
    unfold CommandService._handle_ai_command
    rw [hk, hc]
  · intro k m hk hc
    unfold CommandService._handle_ai_command
    rw [hk, hc]

theorem classify_raw_ai_routing_witness :
    (CommandService.process_command envOk db1 0 "ai: hi".data).1
        = .ok (CommandService._handle_ai_command envOk "ai: hi".data).1
  ∧ CommandService._handle_ai_command envOk "ai: hi".data
      = (pyStrip " yo ".data, true) := by
  have h := classify_raw_ai_routing envOk db1 0 "ai: hi".data
    { session_id := 0, started_at := 0, ended_at := none, is_active := true }
    (by decide) (by decide) (by decide)
  exact ⟨h.1 (by decide), h.2.2.1 "k".data " yo ".data rfl rfl⟩

/-- C4: when an AI-classified command hits a failing AI layer — no key
configured, or the client raising any exception — `process_command` still
returns `{"response": ...}, 200` with a descriptive fallback text, the
single appended log row carries `is_ai_response = false`, and none of the
dispatcher\x27s error results (404/400) is produced. -/
theorem ai_failure_absorbed (env : AiEnv) (db : DB) (sid : Nat)
    (cmd : List Char) (s : DemoSession)
    (hg : SessionService.get_session db sid = some s)
    (ha : ¬ s.is_active = false) (he : ¬ pyStrip cmd = [])
    (hai : "ai:".data.isPrefixOf (pyLower cmd) = true) :
    (env.api_key = none →
       (CommandService.process_command env db sid cmd).1
           = .ok "AI service not configured".data
       ∧ ∃ e, (CommandService.process_command env db sid cmd).2.logs
                = db.logs ++ [e]
           ∧ e.is_ai_response = false
           ∧ e.response = "AI service not configured".data)
  ∧ (∀ k m, env.api_key = some k →
       env.aiCall (pyStrip (cmd.drop 3)) = .exn m →
       (CommandService.process_command env db sid cmd).1
           = .ok ("AI service error: ".data ++ m)
       ∧ ∃ e, (CommandService.process_command env db sid cmd).2.logs
                = db.logs ++ [e]
           ∧ e.is_ai_response = false
           ∧ e.response = "AI service error: ".data ++ m) := by
  rw [process_command_success env db sid cmd s hg ha he]
  constructor
  · intro hk
    have hh : CommandService._handle_ai_command env cmd
        = ("AI service not configured".data, false) := by
      unfold CommandService._handle_ai_command
      rw [hk]
    simp [hai, hh]
  · intro k m hk hc
    have hh : CommandService._handle_ai_command env cmd
        = ("AI service error: ".data ++ m, false) := by
      unfold CommandService._handle_ai_command
      rw [hk, hc]
    simp [hai, hh]

theorem ai_failure_absorbed_witness :
    (CommandService.process_command env0 db1 0 "ai: hi".data).1
      = .ok "AI service not configured".data := by
  have h := ai_failure_absorbed env0 db1 0 "ai: hi".data
    { session_id := 0, started_at := 0, ended_at := none, is_active := true }
    (by decide) (by decide) (by decide) (by decide)
  exact (h.1 rfl).1

/-- C5: the rule-based responder never flags a response as AI, needs no
configuration to succeed, and picks its text by case-insensitive substring
match, first match winning: `hello` beats `time` beats `help`, with a
fixed fallback otherwise; and every accepted non-`ai:` command is answered
by exactly this responder. -/
theorem dummy_responder_table (now : List Char) (cmd : List Char) :
    ((CommandService._handle_dummy_command now cmd).2 = false)
  ∧ (strContains (pyLower cmd) "hello".data = true →
       (CommandService._handle_dummy_command now cmd).1
         = "Hello! How can I assist you today?".data)
  ∧ (strContains (pyLower cmd) "hello".data = false →
     strContains (pyLower cmd) "time".data = true →
       (CommandService._handle_dummy_command now cmd).1
         = "The current time is ".data ++ now)
  ∧ (strContains (pyLower cmd) "hello".data = false →
     strContains (pyLower cmd) "time".data = false →
     strContains (pyLower cmd) "help".data = true →
       (CommandService._handle_dummy_command now cmd).1
         = "I can help you with basic commands. Try saying \x27hello\x27, \x27time\x27, or prefix with \x27ai:\x27 for AI responses.".data)
  ∧ (strContains (pyLower cmd) "hello".data = false →
     strContains (pyLower cmd) "time".data = false →
     strContains (pyLower cmd) "help".data = false →
       (CommandService._handle_dummy_command now cmd).1
         = "I\x27m not sure how to respond to that yet. Try saying \x27help\x27 for available commands.".data)
  ∧ (∀ env db sid s, env.nowStr = now →
       SessionService.get_session db sid = some s →
       ¬ s.is_active = false → ¬ pyStrip cmd = [] →
       "ai:".data.isPrefixOf (pyLower cmd) = false →
       (CommandService.process_command env db sid cmd).1
         = .ok (CommandService._handle_dummy_command now cmd).1) := by
  refine ⟨?_, ?_, ?_, ?_, ?_, ?_⟩
  · unfold CommandService._handle_dummy_command
    by_cases h1 : strContains (pyLower cmd) "hello".data <;>
      by_cases h2 : strContains (pyLower cmd) "time".data <;>
        by_cases h3 : strContains (pyLower cmd) "help".data <;>
          simp [h1, h2, h3]
  · intro h1
    unfold CommandService._handle_dummy_command
    simp [h1]
  · intro h1 h2
    unfold CommandService._handle_dummy_command
    simp [h1, h2]
  · intro h1 h2 h3
    unfold CommandService._handle_dummy_command
    simp [h1, h2, h3]
  · intro h1 h2 h3
    unfold CommandService._handle_dummy_command
    simp [h1, h2, h3]
  · intro env db sid s hnow hg ha he hai
    subst hnow
    rw [process_command_success env db sid cmd s hg ha he]
    simp [hai]

theorem dummy_responder_table_witness :
    strContains (pyLower "Hello there".data) "hello".data = true
  ∧ (CommandService._handle_dummy_command "12:00:00".data "Hello there".data).1
      = "Hello! How can I assist you today?".data
  ∧ (CommandService.process_command envOk db1 0 "What time is it".data).1
      = .ok (CommandService._handle_dummy_command "12:00:00".data "What time is it".data).1 := by
  refine ⟨by decide, (dummy_responder_table "12:00:00".data "Hello there".data).2.1 (by decide), ?_⟩
  exact (dummy_responder_table "12:00:00".data "What time is it".data).2.2.2.2.2
    envOk db1 0 { session_id := 0, started_at := 0, ended_at := none, is_active := true }
    rfl (by decide) (by decide) (by decide) (by decide)

/-- C9: `ask_ai` maps each typed AI failure to its own status — missing
key to 500, rate limit to 429, invalid request to 400, auth failure to
500, other API error to 503 — always carrying a canned human-readable
fallback text; and an empty `user_input` yields 400 before the completion
boundary is ever invoked. -/
theorem ask_ai_error_taxonomy (env : AskEnv) (db : DB)
    (ui st : List Char) (sid : Option Nat) :
    (pyStrip ui = [] →
       ask_ai env db ui st sid
         = ({ response := none, error := some "User input is required".data,
              user_input := none, screen_context_length := none, status := 400 },
            false, db))
  ∧ (pyStrip ui ≠ [] → env.openai_api_key = none →
       ask_ai env db ui st sid
         = ({ response := none,
              error := some "AI service not configured. Please contact support.".data,
              user_input := none, screen_context_length := none, status := 500 },
            false, db))
  ∧ (∀ k, pyStrip ui ≠ [] → env.openai_api_key = some k →
       env.call (ask_ai_prompt
           (if st = [] then "No screen content available".data else st.take 1500) ui)
         = .rateLimit →
       ask_ai env db ui st sid
         = ({ response := some "I\x27m receiving too many requests right now. Please wait a moment and try again.".data,
              error := some "Rate limit exceeded".data,
              user_input := none, screen_context_length := none, status := 429 },
            true, db))
  ∧ (∀ k, pyStrip ui ≠ [] → env.openai_api_key = some k →
       env.call (ask_ai_prompt
           (if st = [] then "No screen content available".data else st.take 1500) ui)
         = .invalidRequest →
       ask_ai env db ui st sid
         = ({ response := some "I\x27m having trouble processing your request. Please try rephrasing your question.".data,
              error := some "Invalid request".data,
              user_input := none, screen_context_length := none, status := 400 },
            true, db))
  ∧ (∀ k, pyStrip ui ≠ [] → env.openai_api_key = some k →
       env.call (ask_ai_prompt
           (if st = [] then "No screen content available".data else st.take 1500) ui)
         = .authFailed →
       ask_ai env db ui st sid
         = ({ response := some "AI service is currently unavailable. Please contact support.".data,
              error := some "Authentication failed".data,
              user_input := none, screen_context_length := none, status := 500 },
            true, db))
  ∧ (∀ k, pyStrip ui ≠ [] → env.openai_api_key = some k →
       env.call (ask_ai_prompt
           (if st = [] then "No screen content available".data else st.take 1500) ui)
         = .apiError →
       ask_ai env db ui st sid
         = ({ response := some "I\x27m experiencing technical difficulties. Please try again in a moment.".data,
              error := some "API error".data,
              user_input := none, screen_context_length := none, status := 503 },
            true, db)) := by
  refine ⟨?_, ?_, ?_, ?_, ?_, ?_⟩
  · intro h
    unfold ask_ai
    simp [h]
  · intro h hk
    unfold ask_ai
    simp [h, hk]
  · intro k h hk hc
    unfold ask_ai
    simp only [h, if_neg, hk]
    simp [hc]
  · intro k h hk hc
    unfold ask_ai
    simp only [h, if_neg, hk]
    simp [hc]
  · intro k h hk hc
    unfold ask_ai
    simp only [h, if_neg, hk]
    simp [hc]
  · intro k h hk hc
    unfold ask_ai
    simp only [h, if_neg, hk]
    simp [hc]

theorem ask_ai_error_taxonomy_witness :
    ask_ai { envA with call := fun _ => .rateLimit } db1 "hi".data "abc".data none
      = ({ response := some "I\x27m receiving too many requests right now. Please wait a moment and try again.".data,
           error := some "Rate limit exceeded".data,
           user_input := none, screen_context_length := none, status := 429 },
         true, db1) :=
  (ask_ai_error_taxonomy { envA with call := fun _ => .rateLimit } db1
      "hi".data "abc".data none).2.2.1 "k".data (by decide) rfl rfl

/-- C10: when the completion call succeeds but its stripped reply is
empty, `ask_ai` returns status 200 with the canned i-could-not-generate
fallback and skips the best-effort command-log write — the store is
returned unchanged for every supplied `session_id`, so an empty reply is
never recorded. -/
theorem ask_ai_empty_reply_skips_log (env : AskEnv) (db : DB)
    (ui st : List Char) (sid : Option Nat) (k c : List Char)
    (hne : pyStrip ui ≠ []) (hk : env.openai_api_key = some k)
    (hc : env.call (ask_ai_prompt
        (if st = [] then "No screen content available".data else st.take 1500) ui)
      = .ok c)
    (hempty : pyStrip c = []) :
    ask_ai env db ui st sid
      = ({ response := some "I\x27m sorry, I couldn\x27t generate a response. Please try asking your question again.".data,
           error := none, user_input := some ui,
           screen_context_length :=
             some (if st = [] then "No screen content available".data
                   else st.take 1500).length,
           status := 200 },
         true, db) := by
  unfold ask_ai
  simp only [hne, if_neg, hk]
  simp [hc, hempty]

theorem ask_ai_empty_reply_skips_log_witness :
    ask_ai { envA with call := fun _ => .ok "  ".data } db1 "hi".data "abc".data (some 0)
      = ({ response := some "I\x27m sorry, I couldn\x27t generate a response. Please try asking your question again.".data,
           error := none, user_input := some "hi".data,
           screen_context_length := some 3, status := 200 },
         true, db1) := by
  have h := ask_ai_empty_reply_skips_log { envA with call := fun _ => .ok "  ".data }
    db1 "hi".data "abc".data (some 0) "k".data "  ".data (by decide) rfl rfl (by decide)
  simpa using h

/-- C8 as stated fails on the empty screen text: a successful `ask_ai`
call with `screenText = ""` reports `screen_context_length = 27` — the
length of the substituted placeholder `No screen content available` — not
`min(len(screenText), 1500) = 0`. -/
theorem ask_ai_truncation_counterexample :
    (ask_ai envA db1 "hi".data [] none).1.status = 200
  ∧ (ask_ai envA db1 "hi".data [] none).1.screen_context_length = some 27
  ∧ (ask_ai envA db1 "hi".data [] none).1.screen_context_length
      ≠ some (min (List.length ([] : List Char)) 1500) := by
  refine ⟨rfl, rfl, by decide⟩

/-- C8 (amended): for a non-empty `screenText` the context is silently
truncated to at most 1500 characters before the prompt is built, and every
success-shaped response reports `screen_context_length =
min(len(screenText), 1500)`; an empty `screenText` is replaced by the
27-character placeholder and its length is reported instead. -/
theorem ask_ai_truncation (env : AskEnv) (db : DB)
    (ui st : List Char) (sid : Option Nat) (k : List Char)
    (hne : pyStrip ui ≠ []) (hk : env.openai_api_key = some k) :
    (st ≠ [] →
       (st.take 1500).length = min st.length 1500
     ∧ (st.take 1500).length ≤ 1500
     ∧ (∀ c, env.call (ask_ai_prompt (st.take 1500) ui) = .ok c →
         (ask_ai env db ui st sid).1.screen_context_length
           = some (min st.length 1500)))
  ∧ (st = [] →
       ∀ c, env.call (ask_ai_prompt "No screen content available".data ui) = .ok c →
         (ask_ai env db ui st sid).1.screen_context_length = some 27) := by
  constructor
  · intro hst
    have hlen : (st.take 1500).length = min st.length 1500 := by
      rw [List.length_take, Nat.min_comm]
    refine ⟨hlen, by rw [List.length_take]; exact Nat.min_le_left _ _, ?_⟩
    intro c hc
    unfold ask_ai
    simp only [hne, if_neg, hk]
    simp only [hst, if_neg]
    simp [hc]
    split <;> simp [Nat.min_comm]
  · intro hst c hc
    subst hst
    unfold ask_ai
    simp only [hne, if_neg, hk]
    simp [hc]
    split <;> rfl

theorem ask_ai_truncation_witness :
    (ask_ai envA db1 "hi".data "abc".data none).1.screen_context_length
      = some (min ("abc".data).length 1500) := by
  have h := ask_ai_truncation envA db1 "hi".data "abc".data none "k".data
    (by decide) rfl
  exact (h.1 (by decide)).2.2 "yo".data rfl
